import Mathlib

/-!
Shallow embedding of the `project-mcp-tools` repository (src/tools/read_file.py,
src/tools/write_file.py, src/tools/grep.py).

The filesystem is modelled as a finite list of regular files (path, content,
modification time) plus a list of directory paths.  Python text strings are
Lean `String`s; `str.splitlines()` is modelled for `\n` line separators,
which is the separator the repository's contracts are stated over.  The
Python `re` regex engine and the `fastmcp` context are external libraries,
so they enter the embedding as parameters; a concrete sample engine for
literal patterns is provided so that theorems can be evaluated on concrete
inputs.
-/

/-- A regular file in the modelled filesystem: path, text content and
modification time (`os.path.getmtime`). -/
structure FSFile where
  path : String
  content : String
  mtime : Nat
deriving DecidableEq, Repr

/-- The modelled filesystem: regular files plus existing directories. -/
structure FileSystem where
  files : List FSFile
  dirs : List String
deriving DecidableEq, Repr

/-- `os.path.isfile` / `Path.is_file`. -/
def FileSystem.isFile (fs : FileSystem) (p : String) : Bool :=
  fs.files.any (fun f => f.path = p)

/-- Directory existence. -/
def FileSystem.isDir (fs : FileSystem) (p : String) : Bool :=
  fs.dirs.contains p

/-- `os.path.exists` / `Path.exists`. -/
def FileSystem.pathExists (fs : FileSystem) (p : String) : Bool :=
  fs.isFile p || fs.isDir p

/-- `Path.read_text`: the content of the regular file at `p` (only used on
paths that are files; defaults to `""`). -/
def FileSystem.readContent (fs : FileSystem) (p : String) : String :=
  match fs.files.find? (fun f => f.path = p) with
  | some f => f.content
  | none => ""

/-- `os.path.getmtime`. -/
def FileSystem.getMtime (fs : FileSystem) (p : String) : Nat :=
  match fs.files.find? (fun f => f.path = p) with
  | some f => f.mtime
  | none => 0

/-- `Path.write_text` (with `mkdir(parents=True, exist_ok=True)` for the
parent): overwrite or create the file at `p` with content `c`; the new
modification time is `t`. -/
def FileSystem.writeContent (fs : FileSystem) (p : String) (c : String) (t : Nat) : FileSystem :=
  { fs with files := ⟨p, c, t⟩ :: fs.files.filter (fun f => f.path ≠ p) }

/-- Accumulator-based model of Python `str.splitlines()` over `\n`
separators: a trailing newline does not yield a trailing empty line, and the
empty string yields no lines. `acc` holds the current (reversed) line. -/
def splitlinesAux : List Char → List Char → List String
  | [], acc => if acc.isEmpty then [] else [String.mk acc.reverse]
  | c :: rest, acc =>
    if c = '\n' then String.mk acc.reverse :: splitlinesAux rest []
    else splitlinesAux rest (c :: acc)

/-- Python `str.splitlines()` (for `\n`-separated text). -/
def splitlines (s : String) : List String :=
  splitlinesAux s.data []

/-- Python `"\n".join(lines)`. -/
def joinWithNL : List String → String
  | [] => ""
  | [a] => a
  | a :: rest => a ++ "\n" ++ joinWithNL rest

/- ------------------------------------------------------------------ -/
/- read_file (src/tools/read_file.py)                                  -/
/- ------------------------------------------------------------------ -/

/-- The two failure kinds of `read_file`: `FileNotFoundError` (path does not
exist) and `ValueError` (path exists but is not a regular file). -/
inductive ReadError where
  | notFound (msg : String)
  | notAFile (msg : String)
deriving DecidableEq, Repr

/-- Lines 56–67 of read_file.py: offset clamping / slicing and the limit /
default-2000-cap logic.  Returns the selected lines together with
`start_idx`. -/
def selectLines (ls : List String) (offset limit : Option Int) : List String × Nat :=
  let p : List String × Nat :=
    match offset with
    | some o =>
      let o := if o < 1 then 1 else o
      let si := (o - 1).toNat
      (ls.drop si, si)
    | none => (ls, 0)
  match limit with
  | some n => if n > 0 then (p.1.take n.toNat, p.2) else p
  | none => (p.1.take 2000, p.2)

/-- Lines 70–74 of read_file.py: per-line truncation of lines longer than
2000 characters. -/
def truncateLine (line : String) : String :=
  if line.length > 2000 then String.mk (line.data.take 2000) ++ "... [line truncated]"
  else line

/-- One formatted output row: `f"     {i}→{line}"`. -/
def numberLine (i : Nat) (line : String) : String :=
  "     " ++ toString i ++ "→" ++ line

/-- `enumerate(truncated_lines, start=i)` rendered through `numberLine`. -/
def numberAll : List String → Nat → List String
  | [], _ => []
  | l :: ls, i => numberLine i l :: numberAll ls (i + 1)

/-- Lines 76–83 of read_file.py: join the numbered rows, or the
`[Empty file]` sentinel when no line survives. -/
def formatLines (ls : List String) (start_idx : Nat) : String :=
  if ls.isEmpty then "[Empty file]"
  else joinWithNL (numberAll ls (start_idx + 1))

/-- `read_file` up to (but not including) output formatting: existence and
file-kind checks, line selection and per-line truncation.  Returns the
truncated selected lines and `start_idx`. -/
def read_file_lines (fs : FileSystem) (file_path : String) (offset limit : Option Int) :
    Except ReadError (List String × Nat) :=
  if fs.pathExists file_path then
    if fs.isFile file_path then
      let lines := splitlines (fs.readContent file_path)
      let sel := selectLines lines offset limit
      .ok (sel.1.map truncateLine, sel.2)
    else .error (.notAFile ("Path is not a file: " ++ file_path))
  else .error (.notFound ("File does not exist: " ++ file_path))

/-- src/tools/read_file.py, `read_file(file_path, offset, limit)`. -/
def read_file (fs : FileSystem) (file_path : String) (offset limit : Option Int) :
    Except ReadError String :=
  (read_file_lines fs file_path offset limit).map (fun r => formatLines r.1 r.2)

/- ------------------------------------------------------------------ -/
/- write_file (src/tools/write_file.py)                                -/
/- ------------------------------------------------------------------ -/

/-- src/tools/write_file.py, `write_file(file_path, content)`: overwrite the
file (creating parents) and return the success message.  `t` is the
modification time the filesystem assigns to the written file. -/
def write_file (fs : FileSystem) (file_path content : String) (t : Nat) :
    FileSystem × String :=
  (fs.writeContent file_path content t,
   "Successfully wrote " ++ toString content.length ++ " characters to " ++ file_path)

/- ------------------------------------------------------------------ -/
/- grep (src/tools/grep.py)                                            -/
/- ------------------------------------------------------------------ -/

/-- The parameter record of `grep` (defaults as in the Python signature). -/
structure GrepArgs where
  pattern : String
  path : Option String := none
  glob : Option String := none
  type : Option String := none
  output_mode : Option String := some "files_with_matches"
  case_insensitive : Bool := false
  multiline : Bool := false
  head_limit : Option Int := none
  context_before : Option Int := none
  context_after : Option Int := none
  context_around : Option Int := none
  show_line_numbers : Bool := false
deriving DecidableEq, Repr

/-- The external Python `re` engine: `compile pattern case_insensitive
multiline` either fails with the engine's diagnostic (`re.error`) or yields
a matcher returning, for a content string, the start positions (character
indices) of the `finditer` matches in order. -/
structure RegexEngine where
  compile : String → Bool → Bool → Except String (String → List Nat)

/-- Python truthiness of an `Optional[str]` (`None` and `""` are falsy). -/
def optTruthy : Option String → Bool
  | none => false
  | some s => !s.isEmpty

/-- Python truthiness-based `a or d` for an `Optional[int]` (used for
`context_before or context_around or 0`: `0` is falsy). -/
def pyOrI (a : Option Int) (d : Int) : Int :=
  match a with
  | none => d
  | some x => if x = 0 then d else x

/-- Fixed type→extension-glob mapping of grep.py (lines 61–77); unknown
types map to no globs. -/
def typeExtensions : String → List String
  | "js" => ["*.js"]
  | "py" => ["*.py"]
  | "rust" => ["*.rs"]
  | "go" => ["*.go"]
  | "java" => ["*.java"]
  | "ts" => ["*.ts"]
  | "tsx" => ["*.tsx"]
  | "jsx" => ["*.jsx"]
  | "html" => ["*.html"]
  | "css" => ["*.css"]
  | "json" => ["*.json"]
  | "yaml" => ["*.yaml", "*.yml"]
  | "xml" => ["*.xml"]
  | "md" => ["*.md"]
  | "txt" => ["*.txt"]
  | _ => []

/-- `root + "/"` is a proper path-prefix of `p` (membership of a file in the
recursive walk of `root`, `os.walk`). -/
def isUnder (root p : String) : Bool :=
  (root ++ "/").data.isPrefixOf p.data

/-- The `str(e)` of the `AttributeError` raised by `glob.glob(...)` in
grep.py: the function parameter `glob` shadows the imported `glob` module,
so the attribute lookup happens on the parameter's value (`None` or a
`str`), never on the module. -/
def pyAttrErr (globPat : Option String) : String :=
  match globPat with
  | none => "'NoneType' object has no attribute 'glob'"
  | some _ => "'str' object has no attribute 'glob'"

/-- Lines 56–101 of grep.py: candidate-file enumeration.  The `type` and
`glob` branches call `glob.glob(...)`, where `glob` is the shadowing string
parameter, so the first such call raises `AttributeError` (modelled as
`.error`); the `type` branch reaches no such call when the type token is
unknown (its extension list is empty, so the loop body never runs).  The
final branch is the unrestricted `os.walk` over the root. -/
def enumerateFiles (fs : FileSystem) (root : String) (globPat ty : Option String) :
    Except String (List String) :=
  if optTruthy ty then
    if (typeExtensions (ty.getD "")).isEmpty then .ok []
    else .error (pyAttrErr globPat)
  else if optTruthy globPat then .error "'str' object has no attribute 'glob'"
  else .ok ((fs.files.map (fun f => f.path)).filter (fun p => isUnder root p))

/-- Line 127 of grep.py: 1-based line number of a match starting at
character position `sp` (`content[:start_pos].count('\n') + 1`). -/
def matchLineNum (content : String) (sp : Nat) : Int :=
  ((content.data.take sp).count '\n' : Int) + 1

/-- Lines 129–137 of grep.py: the context window rendered for one match on
line `lineNum` (optionally line-numbered rows). -/
def contextWindow (args : GrepArgs) (lines : List String) (lineNum : Int) : List String :=
  let bef := pyOrI args.context_before (pyOrI args.context_around 0)
  let aft := pyOrI args.context_after (pyOrI args.context_around 0)
  let startLine := max 1 (lineNum - bef)
  let endLine := min (lines.length : Int) (lineNum + aft)
  let s := (startLine - 1).toNat
  ((List.range' s (endLine.toNat - s)).filterMap
    (fun i => (lines[i]?).map
      (fun l => (if args.show_line_numbers then toString (i + 1) ++ ":" else "") ++ l)))

/-- Content-mode rows contributed by one file (all matches, file order). -/
def fileContentRows (args : GrepArgs) (content : String) (starts : List Nat) : List String :=
  let lines := splitlines content
  starts.flatMap (fun sp => contextWindow args lines (matchLineNum content sp))

/-- Lines 111–144 of grep.py: the per-file scan step over the accumulator
`(matching_results, matching_files)`: skip files over 50MB, record a file on
any match, and extend the mode-specific results. -/
def scanFile (finditer : String → List Nat) (fs : FileSystem) (args : GrepArgs)
    (acc : List String × List String) (fp : String) : List String × List String :=
  let content := fs.readContent fp
  if content.utf8ByteSize > 52428800 then acc
  else
    let starts := finditer content
    if starts.isEmpty then acc
    else
      let mfiles := acc.2 ++ [fp]
      if args.output_mode = some "content" then
        (acc.1 ++ fileContentRows args content starts, mfiles)
      else if args.output_mode = some "count" then
        (acc.1 ++ [toString starts.length ++ ":" ++ fp], mfiles)
      else (acc.1, mfiles)

/-- The whole matching loop of grep.py. -/
def scanFiles (finditer : String → List Nat) (fs : FileSystem) (args : GrepArgs)
    (files : List String) : List String × List String :=
  files.foldl (scanFile finditer fs args) ([], [])

/-- Python `list.sort(key=..., reverse=True)` restricted to the mtime key: a
stable descending insertion. -/
def insertDesc (fs : FileSystem) (x : String) : List String → List String
  | [] => [x]
  | y :: ys =>
    if fs.getMtime y ≤ fs.getMtime x then x :: y :: ys
    else y :: insertDesc fs x ys

/-- Line 150 of grep.py: stable sort of the matching files by modification
time, most recent first. -/
def sortByMtimeDesc (fs : FileSystem) : List String → List String
  | [] => []
  | x :: xs => insertDesc fs x (sortByMtimeDesc fs xs)

/-- Lines 160–162 of grep.py: `if head_limit and head_limit > 0:
result_lines = result_lines[:head_limit]`. -/
def applyHeadLimit (hl : Option Int) (ls : List String) : List String :=
  match hl with
  | some n => if n > 0 then ls.take n.toNat else ls
  | none => ls

/-- The trailing filter-description of the two empty-result messages. -/
def filterSuffix (globPat ty : Option String) : String :=
  if optTruthy globPat then " with pattern '" ++ globPat.getD "" ++ "'"
  else if optTruthy ty then " with type '" ++ ty.getD "" ++ "'"
  else ""

/-- grep.py up to the head-limit step: `.error` carries any early-exit
message (both the `Error:`-prefixed failures — including the
`AttributeError` surfaced by the outer `except` — and the two descriptive
no-result messages), `.ok` the final `result_lines` list. -/
def grepCore (env : RegexEngine) (fs : FileSystem) (cwd : String) (args : GrepArgs) :
    Except String (List String) :=
  let search_path := args.path.getD cwd
  if fs.pathExists search_path then
    match env.compile args.pattern args.case_insensitive args.multiline with
    | .error e => .error ("Error: Invalid regex pattern '" ++ args.pattern ++ "': " ++ e)
    | .ok finditer =>
      match enumerateFiles fs search_path args.glob args.type with
      | .error e => .error ("Error: " ++ e)
      | .ok raw =>
        let files_to_search := raw.filter (fun p => fs.isFile p)
        if files_to_search.isEmpty then
          .error ("No files found to search in '" ++ search_path ++ "'"
                  ++ filterSuffix args.glob args.type)
        else
          let scanned := scanFiles finditer fs args files_to_search
          if scanned.2.isEmpty then
            .error ("No files found containing pattern '" ++ args.pattern ++ "' in '"
                    ++ search_path ++ "'" ++ filterSuffix args.glob args.type)
          else
            let sorted := sortByMtimeDesc fs scanned.2
            .ok (if args.output_mode = some "content" then scanned.1
                 else if args.output_mode = some "count" then scanned.1
                 else sorted)
  else .error ("Error: Directory '" ++ search_path ++ "' does not exist")

/-- grep.py result entries after the head-limit step. -/
def grepLines (env : RegexEngine) (fs : FileSystem) (cwd : String) (args : GrepArgs) :
    Except String (List String) :=
  (grepCore env fs cwd args).map (applyHeadLimit args.head_limit)

/-- src/tools/grep.py, `grep(...)`: always a plain string (early-exit
messages as-is, otherwise the newline-joined result entries). -/
def grep (env : RegexEngine) (fs : FileSystem) (cwd : String) (args : GrepArgs) : String :=
  match grepLines env fs cwd args with
  | .error s => s
  | .ok ls => joinWithNL ls

/-- Start positions of the (possibly overlapping) occurrences of the literal
`needle` in `hay`: a sample matcher standing in for a compiled literal
regex. -/
def litFind (needle : String) (hay : String) : List Nat :=
  (List.range (hay.data.length + 1)).filter
    (fun p => !needle.data.isEmpty && needle.data.isPrefixOf (hay.data.drop p))

/-- A sample regex engine for concrete evaluations: literal patterns match
as substrings, and any pattern containing `[` is rejected the way `re`
rejects `"["`. -/
def sampleEngine : RegexEngine where
  compile pat _ci _ml :=
    if pat.data.contains '\x5b' then .error "unterminated character set at position 0"
    else .ok (litFind pat)

/- ------------------------------------------------------------------ -/
/- Helper lemmas                                                       -/
/- ------------------------------------------------------------------ -/

lemma string_data_eq_nil {c : String} (h : c.data = []) : c = "" := by
  cases c
  simp_all

lemma splitlinesAux_no_nl (cs : List Char) :
    ∀ acc, cs ≠ [] → '\n' ∉ cs →
      splitlinesAux cs acc = [String.mk (acc.reverse ++ cs)] := by
  induction cs with
  | nil => intro acc h _; exact absurd rfl h
  | cons c rest ih =>
    intro acc _ hn
    have hc : ¬ c = '\n' := fun h => hn (h ▸ List.mem_cons_self c rest)
    have hr : '\n' ∉ rest := fun h => hn (List.mem_cons_of_mem c h)
    rcases (List.eq_nil_or_concat rest).symm.imp id id with hrest | hrest
    · unfold splitlinesAux
      rw [if_neg hc]
      rcases hrest with ⟨l, a, rfl⟩
      rw [ih (c :: acc) (by simp) hr]
      simp
    · subst hrest
      unfold splitlinesAux
      rw [if_neg hc]
      unfold splitlinesAux
      simp

lemma splitlines_no_nl (c : String) (hne : c ≠ "") (hn : '\n' ∉ c.data) :
    splitlines c = [c] := by
  have hd : c.data ≠ [] := fun h => hne (string_data_eq_nil h)
  rw [splitlines, splitlinesAux_no_nl c.data [] hd hn]
  rfl

lemma splitlinesAux_ne_nil (cs : List Char) :
    ∀ acc, cs ≠ [] ∨ acc ≠ [] → splitlinesAux cs acc ≠ [] := by
  induction cs with
  | nil =>
    intro acc h
    rcases h with h | h
    · exact absurd rfl h
    · simp [splitlinesAux, h]
  | cons c rest ih =>
    intro acc _
    unfold splitlinesAux
    by_cases hc : c = '\n'
    · simp [hc]
    · rw [if_neg hc]
      exact ih (c :: acc) (Or.inr (by simp))

lemma splitlines_ne_nil (c : String) (hne : c ≠ "") : splitlines c ≠ [] :=
  splitlinesAux_ne_nil c.data [] (Or.inl fun h => hne (string_data_eq_nil h))

/-- The string of `n` lines, each the single character `x`. -/
def xLines (n : Nat) : String := String.mk ((List.replicate n ['x', '\n']).flatten)

lemma splitlines_xLines (n : Nat) : splitlines (xLines n) = List.replicate n "x" := by
  suffices h : ∀ m, splitlinesAux ((List.replicate m ['x', '\n']).flatten) [] =
      List.replicate m "x" from h n
  intro m
  induction m with
  | zero => rfl
  | succ k ih =>
    rw [List.replicate_succ, List.flatten_cons]
    show splitlinesAux ('x' :: '\n' :: (List.replicate k ['x', '\n']).flatten) [] = _
    unfold splitlinesAux
    rw [if_neg (by decide)]
    unfold splitlinesAux
    rw [if_pos rfl, ih]
    rfl

lemma joinWithNL_cons (a : String) (l : List String) :
    ∃ r, joinWithNL (a :: l) = a ++ r := by
  cases l with
  | nil => exact ⟨"", by simp [joinWithNL]⟩
  | cons b bs => exact ⟨"\n" ++ joinWithNL (b :: bs), by simp [joinWithNL, String.append_assoc]⟩

lemma read_file_lines_ok (fs : FileSystem) (p : String) (offset limit : Option Int)
    (h1 : fs.pathExists p = true) (h2 : fs.isFile p = true) :
    read_file_lines fs p offset limit =
      .ok ((selectLines (splitlines (fs.readContent p)) offset limit).1.map truncateLine,
           (selectLines (splitlines (fs.readContent p)) offset limit).2) := by
  simp [read_file_lines, h1, h2]

lemma selectLines_pos_offset (ls : List String) (k : Int) (limit : Option Int) (hk : 1 ≤ k) :
    selectLines ls (some k) limit =
      match limit with
      | some n => if n > 0 then ((ls.drop (k - 1).toNat).take n.toNat, (k - 1).toNat)
                  else (ls.drop (k - 1).toNat, (k - 1).toNat)
      | none => ((ls.drop (k - 1).toNat).take 2000, (k - 1).toNat) := by
  have : ¬ k < 1 := not_lt.mpr hk
  cases limit with
  | none => simp [selectLines, this]
  | some n =>
    by_cases hn : n > 0 <;> simp [selectLines, this, hn]

/- ------------------------------------------------------------------ -/
/- Claim theorems: read_file and write_file                            -/
/- ------------------------------------------------------------------ -/

/-- C9: for every path that does not exist, `read_file` fails with a
NotFound-kind error whose message contains the path; for every path that
exists but is not a regular file (a directory), it fails with the distinct
NotAFile-kind error, also carrying the path. -/
theorem read_file_missing_errors (fs : FileSystem) (p : String) (offset limit : Option Int) :
    (fs.pathExists p = false →
      ∃ s, read_file fs p offset limit = .error (.notFound (s ++ p))) ∧
    (fs.pathExists p = true → fs.isFile p = false →
      ∃ s, read_file fs p offset limit = .error (.notAFile (s ++ p))) := by
  constructor
  · intro h
    exact ⟨"File does not exist: ", by simp [read_file, read_file_lines, h, Except.map]⟩
  · intro h1 h2
    exact ⟨"Path is not a file: ", by simp [read_file, read_file_lines, h1, h2, Except.map]⟩

/-- Witness for C9: a concrete missing path produces the NotFound error
with the path embedded in the message. -/
theorem read_file_missing_errors_w :
    ∃ s, read_file ⟨[], ["/d"]⟩ "/nonexistent" none none
      = .error (.notFound (s ++ "/nonexistent")) :=
  (read_file_missing_errors ⟨[], ["/d"]⟩ "/nonexistent" none none).1 (by decide)

/-- C5: every selected line longer than 2000 characters is emitted as
exactly its first 2000 characters followed by the truncation marker, and
every line of length at most 2000 is emitted unchanged. -/
theorem read_long_line_truncation (fs : FileSystem) (p : String) (offset limit : Option Int)
    (out : List String) (si i : Nat) (line : String)
    (hok : read_file_lines fs p offset limit = .ok (out, si))
    (hline : (selectLines (splitlines (fs.readContent p)) offset limit).1[i]? = some line) :
    (line.length ≤ 2000 → out[i]? = some line) ∧
    (2000 < line.length →
      out[i]? = some (String.mk (line.data.take 2000) ++ "... [line truncated]")) := by
  have hout : out = (selectLines (splitlines (fs.readContent p)) offset limit).1.map truncateLine := by
    by_cases h1 : fs.pathExists p = true
    · by_cases h2 : fs.isFile p = true
      · rw [read_file_lines_ok fs p offset limit h1 h2] at hok
        exact (congrArg Prod.fst (Except.ok.inj hok)).symm
      · simp [read_file_lines, h1, h2] at hok
    · simp [read_file_lines, h1] at hok
  subst hout
  rw [List.getElem?_map, hline]
  constructor
  · intro hle
    simp [truncateLine, Nat.not_lt.mpr hle]
  · intro hgt
    simp [truncateLine, hgt]

/-- Witness for C5: a concrete file whose single line is short is emitted
unchanged. -/
theorem read_long_line_truncation_w :
    (["hi"] : List String)[0]? = some "hi" :=
  (read_long_line_truncation ⟨[⟨"/t", "hi", 0⟩], []⟩ "/t" none none ["hi"] 0 0 "hi"
    (by rfl) (by rfl)).1 (by decide)

/-- A concrete two-line file used in counterexamples and witnesses. -/
def fsThree : FileSystem := ⟨[⟨"/f3", "a\nb\n", 0⟩], []⟩

/-- C3 counterexample: at `offset=1, limit=0` the claimed count
`min(n, max(0, fileLineCount - (k-1))) = min 0 2 = 0` is violated — the code
takes neither the `limit > 0` branch nor the `limit is None` branch, so all
2 lines come back. -/
theorem read_limit_zero_cex :
    read_file_lines fsThree "/f3" (some 1) (some 0) = .ok (["a", "b"], 0) ∧
    ¬ ((["a", "b"] : List String).length = min 0 ((splitlines (fsThree.readContent "/f3")).length - 0)) := by
  constructor
  · rfl
  · decide

/-- C3 amended (limit restricted to `n ≥ 1`): the returned line count is
`min(n, fileLineCount - (k-1))` and the first returned row is numbered `k`. -/
theorem read_offset_limit_count (fs : FileSystem) (p : String) (k n : Int)
    (hk : 1 ≤ k) (hn : 1 ≤ n) (h1 : fs.pathExists p = true) (h2 : fs.isFile p = true) :
    ∃ out, read_file_lines fs p (some k) (some n) = .ok (out, (k - 1).toNat) ∧
      out.length = min n.toNat ((splitlines (fs.readContent p)).length - (k - 1).toNat) ∧
      (out ≠ [] → ∃ rest,
        read_file fs p (some k) (some n) = .ok (numberLine k.toNat (out.headD "") ++ rest)) := by
  have hsel : selectLines (splitlines (fs.readContent p)) (some k) (some n)
      = (((splitlines (fs.readContent p)).drop (k - 1).toNat).take n.toNat, (k - 1).toNat) := by
    rw [selectLines_pos_offset _ _ _ hk]
    simp [lt_of_lt_of_le one_pos hn]
  refine ⟨(((splitlines (fs.readContent p)).drop (k - 1).toNat).take n.toNat).map truncateLine,
    ?_, ?_, ?_⟩
  · rw [read_file_lines_ok fs p (some k) (some n) h1 h2, hsel]
  · simp [List.length_take, List.length_drop]
  · intro hne
    rw [read_file, read_file_lines_ok fs p (some k) (some n) h1 h2, hsel]
    simp only [Except.map]
    rcases hout : (((splitlines (fs.readContent p)).drop (k - 1).toNat).take n.toNat).map truncateLine
      with _ | ⟨h0, t0⟩
    · exact absurd hout hne
    · have hfmt : formatLines (h0 :: t0) (k - 1).toNat
          = joinWithNL (numberAll (h0 :: t0) ((k - 1).toNat + 1)) := by
        simp [formatLines]
      have hidx : (k - 1).toNat + 1 = k.toNat := by omega
      obtain ⟨r, hr⟩ := joinWithNL_cons (numberLine k.toNat h0) (numberAll t0 (k.toNat + 1))
      refine ⟨r, ?_⟩
      rw [hfmt, hidx,
        show numberAll (h0 :: t0) k.toNat = numberLine k.toNat h0 :: numberAll t0 (k.toNat + 1) from rfl,
        hr]
      rfl

/-- Witness for C3's amended theorem at a concrete file, `offset=2`,
`limit=5`. -/
theorem read_offset_limit_count_w :
    ∃ out, read_file_lines fsThree "/f3" (some 2) (some 5) = .ok (out, ((2 : Int) - 1).toNat) ∧
      out.length = min (5 : Int).toNat ((splitlines (fsThree.readContent "/f3")).length - ((2 : Int) - 1).toNat) ∧
      (out ≠ [] → ∃ rest,
        read_file fsThree "/f3" (some 2) (some 5) = .ok (numberLine (2 : Int).toNat (out.headD "") ++ rest)) :=
  read_offset_limit_count fsThree "/f3" 2 5 (by decide) (by decide) (by decide) (by decide)

/-- A concrete 2001-line file, used against the default 2000-line cap. -/
def fsBig : FileSystem := ⟨[⟨"/big", xLines 2001, 0⟩], []⟩

/-- C2 counterexample: a 2001-line file read with explicit `offset=1` and no
limit returns only 2000 lines — the default cap applies in that branch too. -/
theorem read_offset_no_limit_cap_cex :
    ∃ out, read_file_lines fsBig "/big" (some 1) none = .ok (out, 0) ∧
      out.length = 2000 ∧
      (splitlines (fsBig.readContent "/big")).length = 2001 := by
  have hrc : fsBig.readContent "/big" = xLines 2001 := rfl
  have hsp : splitlines (xLines 2001) = List.replicate 2001 "x" := splitlines_xLines 2001
  have htake : (List.replicate 2001 "x").take 2000 = List.replicate 2000 "x" := by
    rw [List.take_replicate]
    norm_num
  have hsel : selectLines (List.replicate 2001 "x") (some 1) none
      = (List.replicate 2000 "x", 0) := by
    rw [selectLines_pos_offset _ 1 none (le_refl 1)]
    show (((List.replicate 2001 "x").drop ((1 : Int) - 1).toNat).take 2000,
      ((1 : Int) - 1).toNat) = _
    rw [show ((1 : Int) - 1).toNat = 0 from rfl, List.drop_zero, htake]
  refine ⟨(List.replicate 2000 "x").map truncateLine, ?_, ?_, ?_⟩
  · rw [read_file_lines_ok fsBig "/big" (some 1) none (by decide) (by decide), hrc, hsp, hsel]
  · rw [List.length_map, List.length_replicate]
  · rw [hrc, hsp, List.length_replicate]

/-- C2 amended: with an explicit offset `k ≥ 1` and no limit, the
default-2000 cap still applies — the result is the lines from the offset
capped at 2000, not necessarily to end of file. -/
theorem read_offset_no_limit_caps_at_2000 (fs : FileSystem) (p : String) (k : Int)
    (hk : 1 ≤ k) (h1 : fs.pathExists p = true) (h2 : fs.isFile p = true) :
    read_file_lines fs p (some k) none
      = .ok ((((splitlines (fs.readContent p)).drop (k - 1).toNat).take 2000).map truncateLine,
             (k - 1).toNat) := by
  rw [read_file_lines_ok fs p (some k) none h1 h2, selectLines_pos_offset _ _ _ hk]

/-- Witness for C2's amended theorem at a concrete file and `offset=2`. -/
theorem read_offset_no_limit_caps_at_2000_w :
    read_file_lines fsThree "/f3" (some 2) none
      = .ok ((((splitlines (fsThree.readContent "/f3")).drop ((2 : Int) - 1).toNat).take 2000).map truncateLine,
             ((2 : Int) - 1).toNat) :=
  read_offset_no_limit_caps_at_2000 fsThree "/f3" 2 (by decide) (by decide) (by decide)

/-- A single line of 2001 `a` characters. -/
def longLine : String := String.mk (List.replicate 2001 'a')

/-- C4 counterexample: writing a single 2001-character line and reading it
back does not reproduce the line — it is truncated to 2000 characters plus
the marker, so the round-trip claimed for every content with at most 2000
lines fails. -/
theorem write_read_roundtrip_cex :
    read_file (write_file ⟨[], []⟩ "/w" longLine 0).1 "/w" none none
      = .ok ("     1→" ++ (String.mk (List.replicate 2000 'a') ++ "... [line truncated]")) ∧
    read_file (write_file ⟨[], []⟩ "/w" longLine 0).1 "/w" none none
      ≠ .ok ("     1→" ++ longLine) := by
  have hfs : (write_file ⟨[], []⟩ "/w" longLine 0).1 = ⟨[⟨"/w", longLine, 0⟩], []⟩ := rfl
  have hrc : (FileSystem.mk [⟨"/w", longLine, 0⟩] []).readContent "/w" = longLine := rfl
  have hnn : '\n' ∉ longLine.data := by
    show '\n' ∉ List.replicate 2001 'a'
    intro h
    exact absurd (List.eq_of_mem_replicate h) (by decide)
  have hlen : longLine.length = 2001 := by
    show (List.replicate 2001 'a').length = 2001
    rw [List.length_replicate]
  have hne : longLine ≠ "" := by
    intro h
    rw [h] at hlen
    exact absurd hlen (by decide)
  have hsp : splitlines longLine = [longLine] := splitlines_no_nl longLine hne hnn
  have htr : truncateLine longLine
      = String.mk (List.replicate 2000 'a') ++ "... [line truncated]" := by
    have hdata : longLine.data.take 2000 = List.replicate 2000 'a' := by
      show (List.replicate 2001 'a').take 2000 = _
      rw [List.take_replicate]
      norm_num
    rw [truncateLine, if_pos (by rw [hlen]; norm_num), hdata]
  have hmain : read_file (write_file ⟨[], []⟩ "/w" longLine 0).1 "/w" none none
      = .ok ("     1→" ++ (String.mk (List.replicate 2000 'a') ++ "... [line truncated]")) := by
    rw [hfs, read_file,
      read_file_lines_ok ⟨[⟨"/w", longLine, 0⟩], []⟩ "/w" none none (by decide) (by decide),
      hrc, hsp]
    show Except.ok (formatLines ([longLine].map truncateLine) 0) = _
    rw [List.map_singleton, htr]
    rfl
  refine ⟨hmain, ?_⟩
  intro hbad
  have heq := Except.ok.inj (hmain.symm.trans hbad)
  have hlength := congrArg String.length heq
  rw [String.length_append, String.length_append, String.length_append, hlen] at hlength
  have h2000 : (String.mk (List.replicate 2000 'a')).length = 2000 := by
    show (List.replicate 2000 'a').length = 2000
    rw [List.length_replicate]
  rw [h2000] at hlength
  exact absurd hlength (by decide)

/-- C4 amended: the write/read round-trip reproduces the lines of `c`
(modulo the numbering prefix) provided `c` is nonempty, has at most 2000
lines, and no line longer than 2000 characters (longer lines are truncated
by read, and empty content renders the `[Empty file]` sentinel instead). -/
theorem write_read_roundtrip (fs : FileSystem) (p c : String) (t : Nat)
    (hne : c ≠ "") (hcount : (splitlines c).length ≤ 2000)
    (hshort : ∀ l ∈ splitlines c, l.length ≤ 2000) :
    read_file (write_file fs p c t).1 p none none
      = .ok (joinWithNL (numberAll (splitlines c) 1)) := by
  have hfile : (write_file fs p c t).1.isFile p = true := by
    simp [write_file, FileSystem.writeContent, FileSystem.isFile]
  have hex : (write_file fs p c t).1.pathExists p = true := by
    simp [FileSystem.pathExists, hfile]
  have hrc : (write_file fs p c t).1.readContent p = c := by
    show FileSystem.readContent _ p = c
    rw [FileSystem.readContent]
    rw [show (write_file fs p c t).1.files = ⟨p, c, t⟩ :: fs.files.filter (fun f => f.path ≠ p)
      from rfl]
    rw [List.find?_cons_of_pos _ (by simp)]
  rw [read_file, read_file_lines_ok (write_file fs p c t).1 p none none hex hfile, hrc]
  have hsel : selectLines (splitlines c) none none = (splitlines c, 0) := by
    show ((splitlines c).take 2000, 0) = _
    rw [List.take_of_length_le hcount]
  rw [hsel]
  have hmap : (splitlines c).map truncateLine = splitlines c := by
    have h1 : (splitlines c).map truncateLine = (splitlines c).map id :=
      List.map_congr_left (fun l hl => by
        rw [truncateLine, if_neg (by exact Nat.not_lt.mpr (hshort l hl))]
        rfl)
    rw [h1, List.map_id]
  show Except.ok (formatLines ((splitlines c).map truncateLine) 0) = _
  rw [hmap]
  rcases h : splitlines c with _ | ⟨a, l⟩
  · exact absurd h (splitlines_ne_nil c hne)
  · simp [formatLines]

/-- Witness for C4's amended theorem: writing two short lines and reading
them back reproduces them with numbering. -/
theorem write_read_roundtrip_w :
    read_file (write_file ⟨[], []⟩ "/w" "hi\nyo" 3).1 "/w" none none
      = .ok (joinWithNL (numberAll (splitlines "hi\nyo") 1)) :=
  write_read_roundtrip ⟨[], []⟩ "/w" "hi\nyo" 3 (by decide) (by decide) (by decide)

/- ------------------------------------------------------------------ -/
/- Claim theorems: grep                                                -/
/- ------------------------------------------------------------------ -/

/-- The C1 scenario: directory `/proj` with `a.py` (content `"foo\nbar\n"`,
mtime 0) and `b.py` (content `"foo\n"`, mtime 1 > 0). -/
def fsC1 : FileSystem :=
  ⟨[⟨"/proj/a.py", "foo\nbar\n", 0⟩, ⟨"/proj/b.py", "foo\n", 1⟩], ["/proj"]⟩

/-- C1: in the scenario, `grep(pattern="foo", type="py",
output_mode="files_with_matches")` does not return the matching files at
all: grep.py's parameter `glob` shadows the imported `glob` module, so the
type branch's `glob.glob(...)` raises `AttributeError` (on `None`), which
the outer handler turns into an error string.  The code never enumerates the
`*.py` files. -/
theorem grep_type_filter_attribute_error :
    grep sampleEngine fsC1 "/proj"
      { pattern := "foo", path := some "/proj", type := some "py" }
      = "Error: 'NoneType' object has no attribute 'glob'" ∧
    grep sampleEngine fsC1 "/proj"
      { pattern := "foo", path := some "/proj", type := some "py" }
      ≠ "/proj/b.py\n/proj/a.py" :=
  ⟨by decide, by decide⟩

/-- C7 counterexample: with a nonexistent root, an invalid pattern does not
produce the InvalidPattern failure — the root-existence check (a filesystem
access) runs first and wins, so the failure is not produced before any
filesystem access. -/
theorem grep_invalid_pattern_checks_root_first_cex :
    grep sampleEngine ⟨[], []⟩ "/cwd" { pattern := "[", path := some "/nope" }
      = "Error: Directory '/nope' does not exist" ∧
    sampleEngine.compile "[" false false
      = .error "unterminated character set at position 0" ∧
    grep sampleEngine ⟨[], []⟩ "/cwd" { pattern := "[", path := some "/nope" }
      ≠ "Error: Invalid regex pattern '[': unterminated character set at position 0" :=
  ⟨by decide, by rfl, by decide⟩

/-- C7 amended: when the root exists, a pattern the engine rejects makes
grep return the InvalidPattern error string, and compilation failure is
detected before any enumeration or file reading — the result does not
depend on the filesystem's contents, only on the root-existence check that
precedes compilation. -/
theorem grep_invalid_pattern_error (env : RegexEngine) (fs : FileSystem) (cwd : String)
    (args : GrepArgs) (e : String)
    (hex : fs.pathExists (args.path.getD cwd) = true)
    (hc : env.compile args.pattern args.case_insensitive args.multiline = .error e) :
    grep env fs cwd args
      = "Error: Invalid regex pattern '" ++ args.pattern ++ "': " ++ e := by
  rw [grep, grepLines, grepCore]
  rw [if_pos hex, hc]
  rfl

/-- Witness for C7's amended theorem: the sample engine's rejection of `[`
under an existing root. -/
theorem grep_invalid_pattern_error_w :
    grep sampleEngine ⟨[], ["/d"]⟩ "/d" { pattern := "[" }
      = "Error: Invalid regex pattern '[': unterminated character set at position 0" :=
  grep_invalid_pattern_error sampleEngine ⟨[], ["/d"]⟩ "/d" { pattern := "[" }
    "unterminated character set at position 0" (by decide) (by rfl)

lemma grepCore_head_limit_irrel (env : RegexEngine) (fs : FileSystem) (cwd : String)
    (args : GrepArgs) (h1 h2 : Option Int) :
    grepCore env fs cwd { args with head_limit := h1 }
      = grepCore env fs cwd { args with head_limit := h2 } := by
  cases args
  rfl

/-- C6: for every grep call and every `N > 0`, adding `head_limit=N` yields
exactly the first `N` entries of the same call without `head_limit`
(uniformly over the output modes, which live inside `args`), and hence at
most `N` entries. -/
theorem grep_head_limit_take (env : RegexEngine) (fs : FileSystem) (cwd : String)
    (args : GrepArgs) (N : Int) (hN : 0 < N) :
    grepLines env fs cwd { args with head_limit := some N }
      = (grepLines env fs cwd { args with head_limit := none }).map
          (fun ls => ls.take N.toNat) ∧
    ∀ ls, grepLines env fs cwd { args with head_limit := some N } = .ok ls →
      ls.length ≤ N.toNat := by
  have hcore := grepCore_head_limit_irrel env fs cwd args (some N) none
  have hmain : grepLines env fs cwd { args with head_limit := some N }
      = (grepLines env fs cwd { args with head_limit := none }).map
          (fun ls => ls.take N.toNat) := by
    rw [grepLines, grepLines, hcore]
    cases grepCore env fs cwd { args with head_limit := none } with
    | error e => rfl
    | ok ls =>
      show Except.ok (applyHeadLimit (some N) ls)
        = Except.ok ((applyHeadLimit none ls).take N.toNat)
      rw [applyHeadLimit, applyHeadLimit, if_pos hN]
  refine ⟨hmain, ?_⟩
  intro ls h
  rw [hmain] at h
  cases hc : grepLines env fs cwd { args with head_limit := none } with
  | error e => rw [hc] at h; exact absurd h (by simp [Except.map])
  | ok ls0 =>
    rw [hc] at h
    have : ls0.take N.toNat = ls := Except.ok.inj h
    rw [← this, List.length_take]
    exact Nat.min_le_left _ _

/-- Witness for C6 at a concrete call with `head_limit=1`. -/
theorem grep_head_limit_take_w :
    grepLines sampleEngine fsC1 "/proj"
        { pattern := "foo", path := some "/proj", head_limit := some 1 }
      = (grepLines sampleEngine fsC1 "/proj"
          { pattern := "foo", path := some "/proj", head_limit := none }).map
          (fun ls => ls.take (1 : Int).toNat) ∧
    ∀ ls, grepLines sampleEngine fsC1 "/proj"
        { pattern := "foo", path := some "/proj", head_limit := some 1 } = .ok ls →
      ls.length ≤ (1 : Int).toNat :=
  grep_head_limit_take sampleEngine fsC1 "/proj"
    { pattern := "foo", path := some "/proj" } 1 (by decide)

lemma mem_insertDesc (fs : FileSystem) (x a : String) (l : List String) :
    a ∈ insertDesc fs x l ↔ a = x ∨ a ∈ l := by
  induction l with
  | nil => simp [insertDesc]
  | cons y ys ih =>
    rw [insertDesc]
    by_cases h : fs.getMtime y ≤ fs.getMtime x
    · rw [if_pos h]
      simp
    · rw [if_neg h]
      simp only [List.mem_cons, ih]
      tauto

lemma pairwise_insertDesc (fs : FileSystem) (x : String) (l : List String)
    (h : l.Pairwise (fun a b => fs.getMtime b ≤ fs.getMtime a)) :
    (insertDesc fs x l).Pairwise (fun a b => fs.getMtime b ≤ fs.getMtime a) := by
  induction l with
  | nil => simp [insertDesc]
  | cons y ys ih =>
    rw [insertDesc]
    rcases List.pairwise_cons.mp h with ⟨hy, hys⟩
    by_cases hcmp : fs.getMtime y ≤ fs.getMtime x
    · rw [if_pos hcmp]
      refine List.pairwise_cons.mpr ⟨?_, h⟩
      intro b hb
      rcases List.mem_cons.mp hb with rfl | hb
      · exact hcmp
      · exact le_trans (hy b hb) hcmp
    · rw [if_neg hcmp]
      refine List.pairwise_cons.mpr ⟨?_, ih hys⟩
      intro b hb
      rcases (mem_insertDesc fs x b ys).mp hb with rfl | hb
      · exact le_of_not_le hcmp
      · exact hy b hb

lemma pairwise_sortByMtimeDesc (fs : FileSystem) (l : List String) :
    (sortByMtimeDesc fs l).Pairwise (fun a b => fs.getMtime b ≤ fs.getMtime a) := by
  induction l with
  | nil => simp [sortByMtimeDesc]
  | cons x xs ih => exact pairwise_insertDesc fs x (sortByMtimeDesc fs xs) ih

lemma pairwise_applyHeadLimit (hl : Option Int) (ls : List String)
    (r : String → String → Prop) (h : ls.Pairwise r) :
    (applyHeadLimit hl ls).Pairwise r := by
  cases hl with
  | none => exact h
  | some n =>
    rw [applyHeadLimit]
    by_cases hn : n > 0
    · rw [if_pos hn]
      exact List.Pairwise.sublist (List.take_sublist _ _) h
    · rw [if_neg hn]
      exact h

lemma grepCore_ok_shape (env : RegexEngine) (fs : FileSystem) (cwd : String)
    (args : GrepArgs) (ls : List String)
    (hm1 : args.output_mode ≠ some "content") (hm2 : args.output_mode ≠ some "count")
    (h : grepCore env fs cwd args = .ok ls) :
    ∃ mf, ls = sortByMtimeDesc fs mf := by
  simp only [grepCore] at h
  simp only [if_neg hm1, if_neg hm2] at h
  split at h
  · split at h
    · exact absurd h (by simp)
    · split at h
      · exact absurd h (by simp)
      · split at h
        · exact absurd h (by simp)
        · split at h
          · exact absurd h (by simp)
          · exact ⟨_, (Except.ok.inj h).symm⟩
  · exact absurd h (by simp)

/-- C8 counterexample: in `count` mode the rendered entries follow the
candidate-enumeration order, not the modification-time-descending order the
claim asserts for every output mode (`/d/a.txt` has the older mtime yet
comes first). -/
theorem grep_count_mode_order_cex :
    grep sampleEngine ⟨[⟨"/d/a.txt", "x\n", 1⟩, ⟨"/d/b.txt", "x\n", 2⟩], ["/d"]⟩ "/d"
        { pattern := "x", path := some "/d", output_mode := some "count" }
      = "1:/d/a.txt\n1:/d/b.txt" ∧
    (⟨[⟨"/d/a.txt", "x\n", 1⟩, ⟨"/d/b.txt", "x\n", 2⟩], ["/d"]⟩ : FileSystem).getMtime "/d/a.txt"
      < (⟨[⟨"/d/a.txt", "x\n", 1⟩, ⟨"/d/b.txt", "x\n", 2⟩], ["/d"]⟩ : FileSystem).getMtime "/d/b.txt" ∧
    grep sampleEngine ⟨[⟨"/d/a.txt", "x\n", 1⟩, ⟨"/d/b.txt", "x\n", 2⟩], ["/d"]⟩ "/d"
        { pattern := "x", path := some "/d", output_mode := some "count" }
      ≠ "1:/d/b.txt\n1:/d/a.txt" :=
  ⟨by decide, by decide, by decide⟩

/-- C8 amended: only the `files_with_matches` listing (every mode other than
`content` and `count`) is ordered by modification time, most recent first;
`content` and `count` entries are emitted in candidate-enumeration order. -/
theorem grep_files_mode_sorted (env : RegexEngine) (fs : FileSystem) (cwd : String)
    (args : GrepArgs) (ls : List String)
    (hm1 : args.output_mode ≠ some "content") (hm2 : args.output_mode ≠ some "count")
    (h : grepLines env fs cwd args = .ok ls) :
    ls.Pairwise (fun a b => fs.getMtime b ≤ fs.getMtime a) := by
  rw [grepLines] at h
  cases hc : grepCore env fs cwd args with
  | error e => rw [hc] at h; exact absurd h (by simp [Except.map])
  | ok ls0 =>
    rw [hc] at h
    obtain ⟨mf, rfl⟩ := grepCore_ok_shape env fs cwd args ls0 hm1 hm2 hc
    have hls : ls = applyHeadLimit args.head_limit (sortByMtimeDesc fs mf) :=
      (Except.ok.inj h).symm
    rw [hls]
    exact pairwise_applyHeadLimit _ _ _ (pairwise_sortByMtimeDesc fs mf)

/-- Witness for C8's amended theorem: the concrete two-file call in
`files_with_matches` mode yields an mtime-descending list. -/
theorem grep_files_mode_sorted_w :
    (["/d/b.txt", "/d/a.txt"] : List String).Pairwise
      (fun a b => (⟨[⟨"/d/a.txt", "x\n", 1⟩, ⟨"/d/b.txt", "x\n", 2⟩], ["/d"]⟩ : FileSystem).getMtime b
        ≤ (⟨[⟨"/d/a.txt", "x\n", 1⟩, ⟨"/d/b.txt", "x\n", 2⟩], ["/d"]⟩ : FileSystem).getMtime a) :=
  grep_files_mode_sorted sampleEngine ⟨[⟨"/d/a.txt", "x\n", 1⟩, ⟨"/d/b.txt", "x\n", 2⟩], ["/d"]⟩
    "/d" { pattern := "x", path := some "/d" } ["/d/b.txt", "/d/a.txt"]
    (by decide) (by decide) (by rfl)

/-- C10: the embedded `grep` is a total function into strings (the Python
`try/except` wrapper turns any raised exception into a returned string), and
every early-exit message is either a failure string that starts with
`"Error: "` — nonexistent root, invalid pattern, and the `AttributeError`
raised inside enumeration — or one of the two descriptive no-result
messages, which start with `"No files found"`. -/
theorem grep_failures_are_error_strings (env : RegexEngine) (fs : FileSystem) (cwd : String)
    (args : GrepArgs) (m : String) (h : grepCore env fs cwd args = .error m) :
    (∃ r, m = "Error: " ++ r) ∨ (∃ r, m = "No files found" ++ r) := by
  have hs1 : ("Error: Directory '" : String) = "Error: " ++ "Directory '" := rfl
  have hs2 : ("Error: Invalid regex pattern '" : String)
      = "Error: " ++ "Invalid regex pattern '" := rfl
  have hs3 : ("No files found to search in '" : String)
      = "No files found" ++ " to search in '" := rfl
  have hs4 : ("No files found containing pattern '" : String)
      = "No files found" ++ " containing pattern '" := rfl
  simp only [grepCore] at h
  split at h
  · split at h
    · injection h with hEm
      subst hEm
      rw [hs2]
      simp only [String.append_assoc]
      exact Or.inl ⟨_, rfl⟩
    · split at h
      · injection h with hEm
        subst hEm
        exact Or.inl ⟨_, rfl⟩
      · split at h
        · injection h with hEm
          subst hEm
          rw [hs3]
          simp only [String.append_assoc]
          exact Or.inr ⟨_, rfl⟩
        · split at h
          · injection h with hEm
            subst hEm
            rw [hs4]
            simp only [String.append_assoc]
            exact Or.inr ⟨_, rfl⟩
          · exact absurd h (by simp)
  · injection h with hEm
    subst hEm
    rw [hs1]
    simp only [String.append_assoc]
    exact Or.inl ⟨_, rfl⟩

/-- Witness for C10 at a concrete failing call (missing root). -/
theorem grep_failures_are_error_strings_w :
    (∃ r, "Error: Directory '/x' does not exist" = "Error: " ++ r) ∨
    (∃ r, ("Error: Directory '/x' does not exist" : String) = "No files found" ++ r) :=
  grep_failures_are_error_strings sampleEngine ⟨[], []⟩ "/cwd"
    { pattern := "p", path := some "/x" } "Error: Directory '/x' does not exist" (by rfl)
